import Mathlib

/-!
Shallow embedding of the VyomNetra space-chat backend (src/main.py).

The dispatcher `space_chat` and its helper functions are translated from the
Python source.  External effects are modelled by an `Env` record supplied to
each request: the parsed request body, the (single) HTTP response each live
fetcher would receive, the optional generative model, and the random source
used by `random.choice`.  Python substring tests (`kw in message`) are
modelled by `strContains`, and `random.choice lst` by indexing with the
environment's random number modulo the list length.
-/

set_option maxRecDepth 20000

namespace VyomNetra

/-- Boolean test that the first list is a prefix of the second
(character-by-character). -/
def hasPrefixL : List Char → List Char → Bool
  | [], _ => true
  | _ :: _, [] => false
  | a :: as, b :: bs => a == b && hasPrefixL as bs

/-- Boolean substring occurrence of `needle` inside a character list,
scanning every suffix. -/
def containsL (needle : List Char) : List Char → Bool
  | [] => hasPrefixL needle []
  | c :: t => hasPrefixL needle (c :: t) || containsL needle t

/-- Python's substring containment `needle in hay`. -/
def strContains (hay needle : String) : Bool :=
  containsL needle.data hay.data

/-- Python's `str.lower`, restricted to ASCII case folding. -/
def lowerStr (s : String) : String :=
  ⟨s.data.map Char.toLower⟩

/-- Python's `random.choice` on a fixed list, with the random draw modelled
as a natural number taken modulo the list length. -/
def choice (l : List String) (r : Nat) : String :=
  l.getD (r % l.length) ""

/-- The topic assigned to a message by the `if/elif` chain of `space_chat`
(src/main.py lines 51-71). -/
inductive Topic where
  | apod
  | neo
  | marsRover
  | launch
  | isro
  | constellationTopic
  | planet
  | star
  | galaxy
  | general
deriving DecidableEq, Repr

/-- Condition of the first `if` branch (picture of the day keywords). -/
def apodCond (m : String) : Bool :=
  strContains m "apod" || strContains m "picture" || strContains m "photo" ||
    strContains m "image"

/-- Condition of the near-earth-object branch. -/
def neoCond (m : String) : Bool :=
  strContains m "asteroid" || strContains m "neo" || strContains m "near earth"

/-- Condition of the Mars rover branch. -/
def marsCond (m : String) : Bool :=
  strContains m "mars" || strContains m "rover" || strContains m "curiosity"

/-- Condition of the SpaceX launch branch. -/
def launchCond (m : String) : Bool :=
  strContains m "spacex" || strContains m "launch" || strContains m "rocket"

/-- Condition of the ISRO branch. -/
def isroCond (m : String) : Bool :=
  strContains m "isro" || strContains m "indian space" || strContains m "india"

/-- Keyword list of the constellation branch (source line 61). -/
def constKeywords : List String :=
  ["ursa major", "ursa minor", "orion", "cassiopeia", "andromeda",
   "constellation", "big dipper", "little dipper"]

/-- Condition of the constellation branch. -/
def constCond (m : String) : Bool :=
  constKeywords.any (fun k => strContains m k)

/-- Keyword list of the planet branch (source line 63). -/
def planetKeywords : List String :=
  ["mercury", "venus", "earth", "mars", "jupiter", "saturn", "uranus",
   "neptune", "planet"]

/-- Condition of the planet branch. -/
def planetCond (m : String) : Bool :=
  planetKeywords.any (fun k => strContains m k)

/-- Keyword list of the star branch (source line 65). -/
def starKeywords : List String :=
  ["star", "sun", "supernova", "neutron star", "white dwarf", "black hole"]

/-- Condition of the star branch. -/
def starCond (m : String) : Bool :=
  starKeywords.any (fun k => strContains m k)

/-- Keyword list of the galaxy branch (source line 67). -/
def galaxyKeywords : List String :=
  ["galaxy", "milky way", "andromeda galaxy", "spiral galaxy"]

/-- Condition of the galaxy branch. -/
def galaxyCond (m : String) : Bool :=
  galaxyKeywords.any (fun k => strContains m k)

/-- Topic classification: the `if/elif` chain of `space_chat` applied to the
already-lowercased user message. -/
def classify (m : String) : Topic :=
  if apodCond m then .apod
  else if neoCond m then .neo
  else if marsCond m then .marsRover
  else if launchCond m then .launch
  else if isroCond m then .isro
  else if constCond m then .constellationTopic
  else if planetCond m then .planet
  else if starCond m then .star
  else if galaxyCond m then .galaxy
  else .general

/-- Fallback facts of `get_fallback_apod_info` (source lines 98-102). -/
def apod_facts : List String :=
  ["🌟 **NASA's APOD Program**: Every day since 1995, NASA has featured a different image or photograph of our fascinating universe, along with a brief explanation written by a professional astronomer!",
   "📸 **Did you know?** NASA's Astronomy Picture of the Day has featured over 10,000 stunning images of space, from distant galaxies to planets in our solar system!",
   "🔭 **APOD Archive**: The NASA APOD archive contains decades of the most beautiful space images ever captured, each with detailed explanations from astronomers!"]

/-- Fallback facts of `get_fallback_neo_info` (source lines 133-137). -/
def neo_facts : List String :=
  ["🪨 **NASA NEO Program**: NASA tracks over 90% of near-Earth asteroids larger than 1 km. None of the known objects pose a threat to Earth for the next 100+ years!",
   "🌌 **Asteroid Facts**: There are currently over 28,000 known near-Earth asteroids. NASA discovers about 3,000 new ones each year using ground and space-based telescopes!",
   "🛡️ **Planetary Defense**: NASA's DART mission successfully changed an asteroid's orbit in 2022, proving we can defend Earth if needed!"]

/-- Static facts of `get_mars_rover_data` (source lines 142-147). -/
def mars_facts : List String :=
  ["🔴 **Mars Rover Update**: NASA's Perseverance rover is currently exploring Jezero Crater, searching for signs of ancient microbial life and collecting samples for future return to Earth!",
   "🤖 **Rover Fleet**: NASA has successfully operated 5 rovers on Mars: Sojourner, Spirit, Opportunity, Curiosity, and Perseverance. Ingenuity helicopter made the first powered flight on another planet!",
   "🧪 **Mars Discovery**: NASA's rovers have confirmed that Mars once had flowing water, a thicker atmosphere, and conditions that could have supported life billions of years ago!",
   "📡 **Current Mission**: Perseverance has collected over 20 rock samples and Ingenuity has completed over 50 flights, far exceeding its planned 5 flights!"]

/-- Fallback facts of `get_spacex_launch_data` (source lines 167-171). -/
def spacex_facts : List String :=
  ["🚀 **SpaceX Achievements**: SpaceX has revolutionized space travel with reusable rockets, reducing launch costs by 90% and making space more accessible than ever before!",
   "🌌 **Starship Program**: SpaceX is developing Starship, the most powerful rocket ever built, designed to carry humans to Mars and make life multiplanetary!",
   "🛰️ **Starlink Network**: SpaceX has deployed over 5,000 Starlink satellites, providing high-speed internet to remote areas worldwide and supporting global connectivity!"]

/-- Static facts of `get_isro_info` (source lines 176-182). -/
def isro_facts : List String :=
  ["🇮🇳 **ISRO Achievements**: India's Mars Orbiter Mission (Mangalyaan) made India the first country to reach Mars orbit in its first attempt, and the most cost-effective Mars mission ever at just $74 million!",
   "🚀 **Chandrayaan Program**: ISRO's Chandrayaan-3 successfully landed on the Moon's south pole in 2023, making India the 4th country to land on the Moon and the first to reach the lunar south pole!",
   "🛰️ **PSLV Success**: ISRO's Polar Satellite Launch Vehicle has achieved over 95% success rate and holds the record for launching 104 satellites in a single mission!",
   "🌍 **Global Impact**: ISRO provides crucial Earth observation data for disaster management, weather forecasting, and agricultural monitoring, serving not just India but the entire world!",
   "💫 **Future Missions**: ISRO is planning Gaganyaan (human spaceflight program), Shukrayaan-1 (Venus mission), and Chandrayaan-4 (Moon sample return mission)!"]

/-- The six general facts of `get_random_space_fact` (source lines 187-194). -/
def space_facts : List String :=
  ["🌌 **NASA Discovery**: The James Webb Space Telescope has detected galaxies that formed just 400 million years after the Big Bang, giving us unprecedented views of the early universe!",
   "⭐ **Stellar Facts**: According to NASA data, there are more stars in the observable universe than grains of sand on all Earth's beaches - approximately 10^24 stars!",
   "🌍 **Earth Science**: NASA Earth observing satellites have shown that Earth's ice sheets are losing mass at an accelerating rate, with critical implications for sea level rise!",
   "🪐 **Solar System**: NASA's Juno mission revealed that Jupiter has a 'fuzzy' core and produces auroras 1000 times brighter than Earth's!",
   "🚀 **ISS Updates**: The International Space Station travels at 17,500 mph, completing an orbit around Earth every 90 minutes. Astronauts see 16 sunrises and sunsets daily!",
   "🌟 **Exoplanet Hunt**: NASA has confirmed over 5,000 exoplanets so far, with many potentially habitable worlds in the 'Goldilocks zone' of their stars!"]

/-- Random pick of `get_fallback_apod_info`. -/
def get_fallback_apod_info (r : Nat) : String := choice apod_facts r

/-- Random pick of `get_fallback_neo_info`. -/
def get_fallback_neo_info (r : Nat) : String := choice neo_facts r

/-- Random pick of `get_mars_rover_data`: a pure static draw, taking only the
random source (the Python function performs no network call). -/
def get_mars_rover_data (r : Nat) : String := choice mars_facts r

/-- Random pick of `get_isro_info`: a pure static draw, taking only the
random source (the Python function performs no network call). -/
def get_isro_info (r : Nat) : String := choice isro_facts r

/-- Random pick of `get_random_space_fact`. -/
def get_random_space_fact (r : Nat) : String := choice space_facts r

/-- Keyed pool of `get_constellation_info` (source lines 199-214), in the
insertion order of the Python dict. -/
def constellation_data : List (String × String) :=
  [("ursa major", "🐻 **Ursa Major (The Great Bear)**: One of the most recognizable constellations! It contains the famous Big Dipper asterism - 7 bright stars that form a ladle shape. Located in the northern sky, it's visible year-round from most northern latitudes. The Big Dipper's pointer stars (Merak and Dubhe) help locate Polaris, the North Star. In mythology, it represents a great bear being hunted across the sky."),
   ("big dipper", "✨ **The Big Dipper**: This isn't actually a constellation but an asterism (star pattern) within Ursa Major! The seven stars - Alkaid, Mizar, Alioth, Megrez, Phecda, Merak, and Dubhe - form the famous ladle shape. Interestingly, 5 of these stars are part of the Ursa Major Moving Group, traveling through space together."),
   ("ursa minor", "🐻 **Ursa Minor (The Little Bear)**: Home to Polaris, the North Star! This constellation contains the Little Dipper asterism. Polaris sits nearly at the north celestial pole, making it appear stationary while other stars rotate around it. Ancient navigators have used Polaris for centuries to find true north."),
   ("orion", "⭐ **Orion (The Hunter)**: Perhaps the most famous constellation! Visible worldwide, it features the iconic three stars of Orion's Belt (Alnitak, Alnilam, Mintaka). The red supergiant Betelgeuse marks his shoulder, while blue-white Rigel marks his foot. The Orion Nebula (M42) is a stellar nursery where new stars are born!"),
   ("cassiopeia", "👑 **Cassiopeia (The Queen)**: This distinctive W-shaped constellation is easy to spot in the northern sky! It's circumpolar from most northern latitudes, meaning it never sets. In mythology, Cassiopeia was a vain queen. The constellation helps locate Polaris and is opposite the Big Dipper across the north celestial pole."),
   ("andromeda", "🌌 **Andromeda (The Princess)**: This constellation is famous for containing the Andromeda Galaxy (M31), our nearest major galactic neighbor! The galaxy is visible to the naked eye as a fuzzy patch. In mythology, Andromeda was a princess chained to a rock as sacrifice to a sea monster, but was saved by Perseus."),
   ("scorpio", "🦂 **Scorpio (The Scorpion)**: A spectacular zodiac constellation visible in summer! Its brightest star is Antares, a red supergiant 700 times the size of our Sun. The constellation looks like a scorpion with a curved tail and claws. In mythology, it's the scorpion that killed Orion the Hunter. Best viewed in July and August in the southern sky!"),
   ("scorpius", "🦂 **Scorpio (The Scorpion)**: A spectacular zodiac constellation visible in summer! Its brightest star is Antares, a red supergiant 700 times the size of our Sun. The constellation looks like a scorpion with a curved tail and claws. In mythology, it's the scorpion that killed Orion the Hunter. Best viewed in July and August in the southern sky!"),
   ("leo", "🦁 **Leo (The Lion)**: A bright zodiac constellation that really looks like a lion! Its brightest star Regulus marks the lion's heart. The 'Sickle' asterism forms the lion's mane and head. Leo is home to many galaxies and the annual Leonid meteor shower in November. Best seen in spring evenings!"),
   ("virgo", "♍ **Virgo (The Virgin)**: The second-largest constellation in the sky! Its brightest star Spica is actually a binary star system. Virgo contains over 1,300 galaxies in the Virgo Cluster. In mythology, Virgo represents the goddess of harvest. Best visible in late spring and early summer!"),
   ("gemini", "♊ **Gemini (The Twins)**: Features the bright stars Castor and Pollux, representing the twin brothers in Greek mythology! Gemini is a zodiac constellation best seen in winter. It's home to the beautiful open star cluster M35 and was the radiant point for the 2020 SpaceX mission naming!"),
   ("cancer", "🦀 **Cancer (The Crab)**: The faintest zodiac constellation, but it contains the beautiful Beehive Cluster (M44)! In mythology, it's the crab that pinched Hercules during his battle with the Hydra. Cancer is best seen in late winter and early spring between Gemini and Leo!"),
   ("aquarius", "🏺 **Aquarius (The Water Bearer)**: A large zodiac constellation known for meteor showers! Home to the radiant points of several meteor showers including the Aquarids. Its brightest star is Sadalsuud. Best viewed in autumn evenings in the southern sky!"),
   ("pisces", "🐟 **Pisces (The Fishes)**: A large but faint zodiac constellation representing two fish tied together! Contains the vernal equinox point where the Sun crosses the celestial equator in spring. Best seen in autumn evenings, though it requires dark skies due to its faint stars!")]

/-- Default entry of `get_constellation_info` (source line 221). -/
def constellationDefault : String :=
  "✨ **Constellations**: Star patterns that have guided humanity for thousands of years! There are 88 official constellations covering the entire sky. They help us navigate, tell time, and share stories across cultures. Popular northern constellations include Ursa Major (Big Dipper), Orion, and Cassiopeia. Which constellation interests you?"

/-- Keyed pool of `get_planet_info` (source lines 225-234). -/
def planet_data : List (String × String) :=
  [("mercury", "☿️ **Mercury**: The closest planet to the Sun and the smallest in our solar system! It has extreme temperature swings from 800°F (430°C) during the day to -290°F (-180°C) at night. A year on Mercury (88 Earth days) is shorter than its day (176 Earth days)! NASA's MESSENGER mission mapped its entire surface."),
   ("venus", "♀️ **Venus**: Earth's 'evil twin' and the hottest planet in our solar system! Its thick atmosphere of carbon dioxide creates a runaway greenhouse effect, reaching 900°F (480°C) - hot enough to melt lead. It rotates backwards and a day is longer than a year there! Often called the 'Morning Star' or 'Evening Star.'"),
   ("earth", "🌍 **Earth**: Our beautiful blue marble and the only known planet with life! 71% covered by oceans, with a perfect distance from the Sun for liquid water. Protected by a magnetic field and ozone layer, it's home to millions of species. NASA monitors Earth's climate and changes from space with dozens of satellites!"),
   ("mars", "🔴 **Mars**: The Red Planet, our most explored neighbor! It gets its color from iron oxide (rust) on its surface. Mars has the largest volcano (Olympus Mons) and canyon (Valles Marineris) in the solar system. NASA's rovers have found evidence of ancient rivers and lakes - it may have harbored life billions of years ago!"),
   ("jupiter", "🪐 **Jupiter**: The king of planets! This gas giant is so massive it could fit all other planets inside it. Jupiter acts as our cosmic protector, attracting asteroids and comets with its powerful gravity. It has over 80 moons, including the four Galilean moons discovered in 1610. The Great Red Spot is a storm larger than Earth!"),
   ("saturn", "🪐 **Saturn**: The jewel of our solar system with its stunning rings! These rings are made of billions of ice and rock particles. Saturn is so light it would float in water! It has 146 known moons, including Titan with its thick atmosphere and liquid methane lakes. NASA's Cassini mission revealed incredible details about Saturn's system."),
   ("uranus", "🌀 **Uranus**: The tilted ice giant! It rotates on its side at a 98-degree angle, possibly due to an ancient collision. Composed mainly of water, methane, and ammonia ices, it appears blue-green due to methane in its atmosphere. It has faint rings and 27 known moons named after Shakespeare characters!"),
   ("neptune", "💙 **Neptune**: The windiest planet with speeds up to 1,200 mph (2,000 km/h)! This deep blue ice giant is the farthest known planet from the Sun. It takes 165 Earth years to complete one orbit! Neptune has 16 known moons, with Triton being the largest and orbiting backwards, suggesting it's a captured Kuiper Belt object.")]

/-- Default entry of `get_planet_info` (source line 240). -/
def planetDefault : String :=
  "🪐 **Our Solar System**: Contains 8 amazing planets, each unique! From scorching Mercury to icy Neptune, they show incredible diversity. NASA missions have visited all planets, revolutionizing our understanding. Which planet would you like to explore?"

/-- Keyed pool of `get_stellar_info` (source lines 244-251). -/
def stellar_data : List (String × String) :=
  [("star", "⭐ **Stars**: Massive nuclear fusion reactors that light up the universe! They fuse hydrogen into helium in their cores, releasing enormous energy. Stars are born in nebulae, live for millions to billions of years, and end as white dwarfs, neutron stars, or black holes depending on their mass."),
   ("sun", "☀️ **Our Sun**: A middle-aged yellow dwarf star that's been shining for 4.6 billion years! Every second, it converts 600 million tons of hydrogen into helium, powering all life on Earth. The Sun's core reaches 27 million°F (15 million°C). Solar activity follows an 11-year cycle monitored by NASA's Solar Dynamics Observatory."),
   ("supernova", "💥 **Supernovae**: The explosive death of massive stars! These cosmic explosions are so bright they can outshine entire galaxies. They create and scatter heavy elements like iron and gold throughout the universe - we are literally made of star stuff! NASA telescopes regularly discover supernovae in distant galaxies."),
   ("neutron star", "⚡ **Neutron Stars**: The ultra-dense remnants of massive stars! A sugar-cube sized piece would weigh 6 billion tons on Earth. They can spin 700 times per second and have magnetic fields trillions of times stronger than Earth's. Some emit radio beams (pulsars) that sweep across space like cosmic lighthouses."),
   ("white dwarf", "💎 **White Dwarfs**: The hot, dense cores left behind when Sun-like stars die! About the size of Earth but with the mass of the Sun. They slowly cool over billions of years, eventually becoming cold, dark objects. Our Sun will become a white dwarf in about 5 billion years."),
   ("black hole", "🕳️ **Black Holes**: Regions of spacetime where gravity is so strong that nothing, not even light, can escape! They form when massive stars collapse. NASA's Event Horizon Telescope captured the first image of a black hole in 2019. The supermassive black hole in our galaxy's center, Sagittarius A*, is 4 million times the Sun's mass!")]

/-- Default entry of `get_stellar_info` (source line 257). -/
def stellarDefault : String :=
  "⭐ **Stars and Stellar Objects**: The universe is filled with incredible stellar phenomena! From main sequence stars like our Sun to exotic objects like neutron stars and black holes. NASA's space telescopes study these cosmic powerhouses. What stellar object interests you?"

/-- Keyed pool of `get_galaxy_info` (source lines 261-265). -/
def galaxy_data : List (String × String) :=
  [("milky way", "🌌 **The Milky Way**: Our home galaxy containing over 100 billion stars! It's a barred spiral galaxy about 100,000 light-years across. We're located in the Orion Arm, about 26,000 light-years from the galactic center. Our entire solar system orbits the galaxy once every 225-250 million years!"),
   ("andromeda galaxy", "🌌 **Andromeda Galaxy (M31)**: Our nearest major galactic neighbor, 2.5 million light-years away! It's approaching us at 250,000 mph and will collide with the Milky Way in about 4.5 billion years, creating a new galaxy astronomers call 'Milkomeda.' You can see it with the naked eye as a fuzzy patch!"),
   ("galaxy", "🌌 **Galaxies**: Massive collections of stars, gas, dust, and dark matter! There are over 2 trillion galaxies in the observable universe. They come in three main types: spiral (like the Milky Way), elliptical, and irregular. NASA's Hubble and James Webb telescopes have revealed galaxies from when the universe was young!")]

/-- Default entry of `get_galaxy_info` (source line 271). -/
def galaxyDefault : String :=
  "🌌 **Galaxies**: Island universes containing billions to trillions of stars! Our Milky Way is just one of countless galaxies in the universe. NASA telescopes study galaxy formation and evolution across cosmic time. Which galaxy interests you?"

/-- The `for key, info in pool.items(): if key in message: return info` loop
shared by the four keyed pools, with the pool's default as the final return. -/
def lookupPool (pool : List (String × String)) (dflt : String) (m : String) : String :=
  match pool.find? (fun kv => strContains m kv.1) with
  | some kv => kv.2
  | none => dflt

/-- `get_constellation_info` (source lines 197-221). -/
def get_constellation_info (m : String) : String :=
  lookupPool constellation_data constellationDefault m

/-- `get_planet_info` (source lines 223-240). -/
def get_planet_info (m : String) : String :=
  lookupPool planet_data planetDefault m

/-- `get_stellar_info` (source lines 242-257). -/
def get_stellar_info (m : String) : String :=
  lookupPool stellar_data stellarDefault m

/-- `get_galaxy_info` (source lines 259-271). -/
def get_galaxy_info (m : String) : String :=
  lookupPool galaxy_data galaxyDefault m

/-- Python's `dict.get(key, default)` on an optional field. -/
def optD : Option String → String → String
  | some s, _ => s
  | none, d => d

/-- Parsed APOD response body: the four fields read by `get_nasa_apod`,
each possibly missing. -/
structure ApodBody where
  title : Option String
  explanation : Option String
  date : Option String
  url : Option String

/-- Success template of `get_nasa_apod` (source line 90). -/
def apodFormat (d : ApodBody) : String :=
  "🌟 **NASA's Astronomy Picture of the Day**: " ++ (optD d.title "Amazing Space Image" ++
    ("\n\n" ++ (optD d.explanation "A beautiful view from space!" ++
      ("\n\n📅 Date: " ++ (optD d.date "Today" ++
        ("\n🔗 You can view it at: " ++ optD d.url "NASA APOD website"))))))

/-- One near-earth object as read by `get_nasa_neo_data`: its name (after
the `Unknown asteroid` default) and its two estimated diameters.  The
diameters are floats in the source; they are abstracted here as their
`.1f`-rendered decimal strings, since no claim inspects their value. -/
structure NeoObj where
  name : Option String
  dminStr : String
  dmaxStr : String

/-- Parsed NEO feed body: the element count (`data.get('element_count', 0)`)
and the object list for today's date
(`data.get('near_earth_objects', {}).get(today, [])`). -/
structure NeoBody where
  element_count : Nat
  objectsToday : List NeoObj

/-- Success template of `get_nasa_neo_data` (source line 125). -/
def neoFormat (count : Nat) (o : NeoObj) : String :=
  "🌌 **NASA NEO Update**: Today, there are " ++ (toString count ++
    (" Near Earth Objects being tracked!\n\n🪨 **Featured Asteroid**: " ++
      (optD o.name "Unknown asteroid" ++
        ("\n📏 **Estimated Size**: " ++ (o.dminStr ++ (" - " ++ (o.dmaxStr ++
          " meters\n\n⚠️ NASA continuously monitors these objects to ensure Earth's safety! All current NEOs pose no threat to our planet.")))))))

/-- Parsed SpaceX launch body: the fields read by `get_spacex_launch_data`.
`success` is `none` for a JSON `null` and the outer `Option` of `details`
is `none` when the key is missing (inner `none` encodes JSON `null`). -/
structure SpacexBody where
  name : Option String
  date_utc : Option String
  details : Option (Option String)
  success : Option Bool

/-- The status text of `get_spacex_launch_data` (source line 161):
`"✅ Successful" if success else "❌ Failed" if success is False else
"⏳ Scheduled"`. -/
def spacexStatus : Option Bool → String
  | some true => "✅ Successful"
  | some false => "❌ Failed"
  | none => "⏳ Scheduled"

/-- The `{details or '...'}` interpolation of `get_spacex_launch_data`:
a missing key takes the `.get` default, `null` and the empty string take the
`or` alternative. -/
def spacexDetails : Option (Option String) → String
  | none => "No details available"
  | some none => "This mission represents SpaceX continued efforts to advance space exploration and make life multiplanetary!"
  | some (some s) =>
    if s == "" then
      "This mission represents SpaceX continued efforts to advance space exploration and make life multiplanetary!"
    else s

/-- Success template of `get_spacex_launch_data` (source line 163). -/
def spacexFormat (d : SpacexBody) : String :=
  "🚀 **Latest SpaceX Mission**: " ++ (optD d.name "Unknown Mission" ++
    ("\n\n📅 **Launch Date**: " ++ (optD d.date_utc "Unknown Date" ++
      ("\n🎯 **Status**: " ++ (spacexStatus d.success ++
        ("\n\n📝 **Details**: " ++ spacexDetails d.details))))))

/-- An HTTP exchange as seen by a fetcher: `error` is a transport failure
raised by `requests.get`, otherwise a status code together with the result
of `response.json()` (which may itself fail to parse). -/
def Fetch (β : Type) : Type := Except Unit (Nat × Except Unit β)

/-- The per-request external world: the parsed request body (`error` models
an exception while reading the JSON message), one HTTP response per live
source, the optional generative model (`none` when no API key is
configured), and the random source feeding `random.choice`. -/
structure Env where
  body : Except String String
  apod : Fetch ApodBody
  neo : Fetch NeoBody
  spacex : Fetch SpacexBody
  model : Option (String → Except String String)
  rand : Nat
  today : String

/-- The NEO feed query URL built by `get_nasa_neo_data` (source line 110):
today's date is used as both start and end of a one-day window. -/
def neo_url (today : String) : String :=
  "https://api.nasa.gov/neo/rest/v1/feed?start_date=" ++ (today ++
    ("&end_date=" ++ (today ++ "&api_key=DEMO_KEY")))

/-- `get_nasa_apod` (source lines 84-94). -/
def get_nasa_apod (env : Env) : String :=
  match env.apod with
  | .error _ => get_fallback_apod_info env.rand
  | .ok (status, parsed) =>
    if status == 200 then
      match parsed with
      | .error _ => get_fallback_apod_info env.rand
      | .ok d => apodFormat d
    else get_fallback_apod_info env.rand

/-- `get_nasa_neo_data` (source lines 105-129): formats the first object
only when the status is 200, the count is positive and today's list is
non-empty; every other outcome falls back. -/
def get_nasa_neo_data (env : Env) : String :=
  match env.neo with
  | .error _ => get_fallback_neo_info env.rand
  | .ok (status, parsed) =>
    if status == 200 then
      match parsed with
      | .error _ => get_fallback_neo_info env.rand
      | .ok d =>
        if d.element_count > 0 then
          match d.objectsToday with
          | [] => get_fallback_neo_info env.rand
          | o :: _ => neoFormat d.element_count o
        else get_fallback_neo_info env.rand
    else get_fallback_neo_info env.rand

/-- `get_spacex_launch_data` (source lines 150-172). -/
def get_spacex_launch_data (env : Env) : String :=
  match env.spacex with
  | .error _ => choice spacex_facts env.rand
  | .ok (status, parsed) =>
    if status == 200 then
      match parsed with
      | .error _ => choice spacex_facts env.rand
      | .ok d => spacexFormat d
    else choice spacex_facts env.rand

/-- The fixed Gemini prompt of `get_smart_space_answer`
(source lines 280-284), with the user message interpolated. -/
def gemini_prompt (m : String) : String :=
  "You are VyomNetra, an expert space and astronomy chatbot. Answer this question about space, astronomy, constellations, planets, or any space-related topic with accurate, engaging information. Keep your response informative but friendly, include relevant emojis, and make it educational.\n\nUser question: " ++
    (m ++
      "\n\nPlease provide a detailed, accurate answer about the space topic they're asking about. If it's about a constellation, include information about its stars, mythology, and how to find it. If it's about planets, include facts about their characteristics and any NASA missions. Make it interesting and educational!")

/-- `get_smart_space_answer` (source lines 273-292): without a configured
model it immediately draws from the general pool; a model failure also
falls back to the general pool. -/
def get_smart_space_answer (env : Env) (m : String) : String :=
  match env.model with
  | none => get_random_space_fact env.rand
  | some f =>
    match f (gemini_prompt m) with
    | .ok t => t
    | .error _ => get_random_space_fact env.rand

/-- The response produced for one request: body text and HTTP status. -/
structure ChatResp where
  response : String
  status : Nat

/-- The apology-plus-fact text of the dispatcher's `except` handler
(source line 80), with the error details appended. -/
def apology (e : String) : String :=
  "I'm having trouble connecting to space agencies right now, but here's an interesting space fact: The universe is about 13.8 billion years old and contains over 2 trillion galaxies! 🌌 Error details: " ++ e

/-- The routing of a classified (already lowercased) message to its
handler, following the `if/elif` chain of `space_chat`. -/
def dispatch (env : Env) (um : String) : String :=
  match classify um with
  | .apod => get_nasa_apod env
  | .neo => get_nasa_neo_data env
  | .marsRover => get_mars_rover_data env.rand
  | .launch => get_spacex_launch_data env
  | .isro => get_isro_info env.rand
  | .constellationTopic => get_constellation_info um
  | .planet => get_planet_info um
  | .star => get_stellar_info um
  | .galaxy => get_galaxy_info um
  | .general => get_smart_space_answer env um

/-- `space_chat` (source lines 41-82): the dispatcher boundary.  A failure
while reading the message is converted by the `except` handler into the
apology response; both paths answer with HTTP status 200. -/
def space_chat (env : Env) : ChatResp :=
  match env.body with
  | .error e => { response := apology e, status := 200 }
  | .ok msg => { response := dispatch env (lowerStr msg), status := 200 }

/-- A minimal environment for concrete test inputs: the given message, all
live sources unreachable, no model configured, random source 0. -/
def mkEnv (msg : String) : Env :=
  { body := .ok msg, apod := .error (), neo := .error (), spacex := .error (),
    model := none, rand := 0, today := "2026-10-12" }

/-- The ordered rule table of the classifier, pairing each branch condition
with its topic in the source's `if/elif` order. -/
def rules : List ((String → Bool) × Topic) :=
  [(apodCond, .apod), (neoCond, .neo), (marsCond, .marsRover),
   (launchCond, .launch), (isroCond, .isro), (constCond, .constellationTopic),
   (planetCond, .planet), (starCond, .star), (galaxyCond, .galaxy)]

/-- First-match-wins evaluation of an ordered rule table, defaulting to
`general`; this is the spec's description of the classifier (section 4.1),
to be compared with `classify`. -/
def firstMatch : List ((String → Bool) × Topic) → String → Topic
  | [], _ => .general
  | (p, t) :: rest, m => if p m then t else firstMatch rest m

/-- The first constellation-pool key whose text the message contains, in
the pool's iteration order. -/
def constFirstKey (m : String) : Option String :=
  (constellation_data.find? (fun kv => strContains m kv.1)).map (fun kv => kv.1)

/-- The planet pool's Mars entry text (source line 229). -/
def marsPlanetText : String :=
  "🔴 **Mars**: The Red Planet, our most explored neighbor! It gets its color from iron oxide (rust) on its surface. Mars has the largest volcano (Olympus Mons) and canyon (Valles Marineris) in the solar system. NASA's rovers have found evidence of ancient rivers and lakes - it may have harbored life billions of years ago!"

/-- The galaxy pool's `andromeda galaxy` entry text (source line 263). -/
def andromedaGalaxyText : String :=
  "🌌 **Andromeda Galaxy (M31)**: Our nearest major galactic neighbor, 2.5 million light-years away! It's approaching us at 250,000 mph and will collide with the Milky Way in about 4.5 billion years, creating a new galaxy astronomers call 'Milkomeda.' You can see it with the naked eye as a fuzzy patch!"

/-- The shared text of the constellation pool's `scorpio` and `scorpius`
entries (source lines 206-207). -/
def scorpioConstText : String :=
  "🦂 **Scorpio (The Scorpion)**: A spectacular zodiac constellation visible in summer! Its brightest star is Antares, a red supergiant 700 times the size of our Sun. The constellation looks like a scorpion with a curved tail and claws. In mythology, it's the scorpion that killed Orion the Hunter. Best viewed in July and August in the southern sky!"

/-- An environment whose configured model answers every prompt with the
empty string. -/
def envEmptyModel : Env :=
  { body := .ok "zzz", apod := .error (), neo := .error (), spacex := .error (),
    model := some (fun _ => .ok ""), rand := 0, today := "2026-10-12" }

/-- An environment whose NEO feed answers with HTTP 200 and an empty
result (`element_count = 0`, no objects for today). -/
def envNeoEmpty : Env :=
  { body := .ok "asteroid", apod := .error (), neo := .ok (200, .ok ⟨0, []⟩),
    spacex := .error (), model := none, rand := 0, today := "2026-10-12" }

/-- An environment whose NEO feed answers with a non-success status. -/
def envNeo500 : Env :=
  { body := .ok "asteroid", apod := .error (), neo := .ok (500, .error ()),
    spacex := .error (), model := none, rand := 0, today := "2026-10-12" }

/-- An environment for the message "mars" whose live sources and model all
differ from `mkEnv "mars"`, to exhibit network independence. -/
def envMarsAlt : Env :=
  { body := .ok "mars", apod := .ok (200, .error ()), neo := .ok (404, .error ()),
    spacex := .ok (200, .ok ⟨some "X", some "Y", some (some "Z"), some true⟩),
    model := some (fun s => .ok s), rand := 0, today := "1999-01-01" }

/-! ### Generic lemmas about the embedded primitives -/

lemma hasPrefixL_append (p r : List Char) : hasPrefixL p (p ++ r) = true := by
  induction p with
  | nil => rfl
  | cons a as ih => simp [hasPrefixL, ih]

lemma append_ne_empty (a b : String) (h : a ≠ "") : a ++ b ≠ "" := by
  intro he
  apply h
  have hd : a.data ++ b.data = ([] : List Char) := by
    rw [← String.data_append, he]
  have ha : a.data = [] := (List.append_eq_nil.mp hd).1
  cases a with
  | mk l =>
    simp only at ha
    rw [ha]

lemma ne_append_left (s pre rest : String)
    (h : hasPrefixL pre.data s.data = false) : s ≠ pre ++ rest := by
  intro he
  rw [he, String.data_append, hasPrefixL_append] at h
  simp at h

lemma choice_mem (l : List String) (h : l ≠ []) (r : Nat) : choice l r ∈ l := by
  have hlen : 0 < l.length := List.length_pos.mpr h
  have hlt : r % l.length < l.length := Nat.mod_lt _ hlen
  unfold choice
  rw [List.getD_eq_getElem?_getD, List.getElem?_eq_getElem hlt]
  simp

lemma choice_ne (l : List String) (hne : l ≠ []) (hall : ∀ x ∈ l, x ≠ "")
    (r : Nat) : choice l r ≠ "" :=
  hall _ (choice_mem l hne r)

lemma lookupPool_ne (pool : List (String × String)) (dflt m t : String)
    (hd : dflt ≠ t)
    (hp : ∀ kv ∈ pool, strContains m kv.1 = true → kv.2 ≠ t) :
    lookupPool pool dflt m ≠ t := by
  unfold lookupPool
  cases hf : pool.find? (fun kv => strContains m kv.1) with
  | none => exact hd
  | some kv =>
    exact hp kv (List.mem_of_find?_eq_some hf) (by simpa using List.find?_some hf)

lemma lookupPool_ne_empty (pool : List (String × String)) (dflt m : String)
    (hd : dflt ≠ "") (hp : ∀ kv ∈ pool, kv.2 ≠ "") :
    lookupPool pool dflt m ≠ "" := by
  unfold lookupPool
  cases hf : pool.find? (fun kv => strContains m kv.1) with
  | none => exact hd
  | some kv => exact hp kv (List.mem_of_find?_eq_some hf)

lemma hasPrefixL_of_append (n1 n2 : List Char) :
    ∀ l, hasPrefixL (n1 ++ n2) l = true → hasPrefixL n1 l = true := by
  induction n1 with
  | nil => intro l _; rfl
  | cons a as ih =>
    intro l h
    cases l with
    | nil => simp [hasPrefixL] at h
    | cons b bs =>
      simp only [List.cons_append, hasPrefixL, Bool.and_eq_true] at h ⊢
      exact ⟨h.1, ih bs h.2⟩

lemma containsL_append_left (n1 n2 : List Char) :
    ∀ hay, containsL (n1 ++ n2) hay = true → containsL n1 hay = true := by
  intro hay
  induction hay with
  | nil =>
    intro h
    exact hasPrefixL_of_append n1 n2 [] h
  | cons c t ih =>
    intro h
    simp only [containsL, Bool.or_eq_true] at h ⊢
    rcases h with h | h
    · exact Or.inl (hasPrefixL_of_append _ _ _ h)
    · exact Or.inr (ih h)

lemma space_chat_status (env : Env) : (space_chat env).status = 200 := by
  unfold space_chat
  cases env.body <;> rfl

lemma space_chat_ok (env : Env) (m : String) (h : env.body = .ok m) :
    (space_chat env).response = dispatch env (lowerStr m) := by
  unfold space_chat
  rw [h]

/-! ### Branch lemmas -/

lemma get_nasa_apod_ne_empty (env : Env) : get_nasa_apod env ≠ "" := by
  have hfb : get_fallback_apod_info env.rand ≠ "" :=
    choice_ne apod_facts (by decide) (by decide) env.rand
  cases h : env.apod with
  | error e => simpa [get_nasa_apod, h] using hfb
  | ok sp =>
    obtain ⟨status, parsed⟩ := sp
    by_cases hs : (status == 200) = true
    · cases parsed with
      | error e => simpa [get_nasa_apod, h, hs] using hfb
      | ok d =>
        have hfmt : apodFormat d ≠ "" := by
          unfold apodFormat
          exact append_ne_empty _ _ (by decide)
        simpa [get_nasa_apod, h, hs] using hfmt
    · simpa [get_nasa_apod, h, hs] using hfb

lemma get_nasa_neo_data_ne_empty (env : Env) : get_nasa_neo_data env ≠ "" := by
  have hfb : get_fallback_neo_info env.rand ≠ "" :=
    choice_ne neo_facts (by decide) (by decide) env.rand
  cases h : env.neo with
  | error e => simpa [get_nasa_neo_data, h] using hfb
  | ok sp =>
    obtain ⟨status, parsed⟩ := sp
    by_cases hs : (status == 200) = true
    · cases parsed with
      | error e => simpa [get_nasa_neo_data, h, hs] using hfb
      | ok d =>
        by_cases hc : 0 < d.element_count
        · cases ho : d.objectsToday with
          | nil => simpa [get_nasa_neo_data, h, hs, hc, ho] using hfb
          | cons o t =>
            have hfmt : neoFormat d.element_count o ≠ "" := by
              unfold neoFormat
              exact append_ne_empty _ _ (by decide)
            simpa [get_nasa_neo_data, h, hs, hc, ho] using hfmt
        · simpa [get_nasa_neo_data, h, hs, hc] using hfb
    · simpa [get_nasa_neo_data, h, hs] using hfb

lemma get_spacex_launch_data_ne_empty (env : Env) :
    get_spacex_launch_data env ≠ "" := by
  have hfb : choice spacex_facts env.rand ≠ "" :=
    choice_ne spacex_facts (by decide) (by decide) env.rand
  cases h : env.spacex with
  | error e => simpa [get_spacex_launch_data, h] using hfb
  | ok sp =>
    obtain ⟨status, parsed⟩ := sp
    by_cases hs : (status == 200) = true
    · cases parsed with
      | error e => simpa [get_spacex_launch_data, h, hs] using hfb
      | ok d =>
        have hfmt : spacexFormat d ≠ "" := by
          unfold spacexFormat
          exact append_ne_empty _ _ (by decide)
        simpa [get_spacex_launch_data, h, hs] using hfmt
    · simpa [get_spacex_launch_data, h, hs] using hfb

lemma get_constellation_info_ne_empty (m : String) :
    get_constellation_info m ≠ "" := by
  unfold get_constellation_info
  exact lookupPool_ne_empty _ _ _ (by decide) (by decide)

lemma get_planet_info_ne_empty (m : String) : get_planet_info m ≠ "" := by
  unfold get_planet_info
  exact lookupPool_ne_empty _ _ _ (by decide) (by decide)

lemma get_stellar_info_ne_empty (m : String) : get_stellar_info m ≠ "" := by
  unfold get_stellar_info
  exact lookupPool_ne_empty _ _ _ (by decide) (by decide)

lemma get_galaxy_info_ne_empty (m : String) : get_galaxy_info m ≠ "" := by
  unfold get_galaxy_info
  exact lookupPool_ne_empty _ _ _ (by decide) (by decide)

lemma dispatch_general (env : Env) (um : String) (h : classify um = .general) :
    dispatch env um = get_smart_space_answer env um := by
  unfold dispatch
  rw [h]

lemma smart_none (env : Env) (m : String) (hm : env.model = none) :
    get_smart_space_answer env m = get_random_space_fact env.rand := by
  simp [get_smart_space_answer, hm]

lemma smart_ok (env : Env) (m : String) (f : String → Except String String)
    (t : String) (hm : env.model = some f) (hf : f (gemini_prompt m) = .ok t) :
    get_smart_space_answer env m = t := by
  simp [get_smart_space_answer, hm, hf]

lemma smart_err (env : Env) (m : String) (f : String → Except String String)
    (e : String) (hm : env.model = some f)
    (hf : f (gemini_prompt m) = .error e) :
    get_smart_space_answer env m = get_random_space_fact env.rand := by
  simp [get_smart_space_answer, hm, hf]

lemma classify_planet_no_mars (m : String) (h : classify m = .planet) :
    strContains m "mars" = false := by
  unfold classify at h
  split_ifs at h with h1 h2 h3 h4 h5 h6 h7 h8 h9
  all_goals simp_all [marsCond]

/-! ### Claim theorems -/

/-- C3: an NEO response with HTTP success but `element_count = 0` or an
empty object list for today triggers the static fallback: the fetcher
returns one of the three NEO fallback facts and never the formatted
object message. -/
theorem neo_empty_success_fallback (env : Env) (d : NeoBody)
    (h : env.neo = .ok (200, .ok d))
    (hempty : d.element_count = 0 ∨ d.objectsToday = []) :
    get_nasa_neo_data env = get_fallback_neo_info env.rand ∧
      get_nasa_neo_data env ∈ neo_facts ∧
      ∀ c o, get_nasa_neo_data env ≠ neoFormat c o := by
  have hfall : get_nasa_neo_data env = get_fallback_neo_info env.rand := by
    rcases hempty with h0 | hobj
    · simp [get_nasa_neo_data, h, h0]
    · rcases Nat.eq_zero_or_pos d.element_count with h0 | hpos
      · simp [get_nasa_neo_data, h, h0]
      · simp [get_nasa_neo_data, h, hobj, hpos]
  have hmem : get_nasa_neo_data env ∈ neo_facts := by
    rw [hfall]
    exact choice_mem neo_facts (by decide) env.rand
  refine ⟨hfall, hmem, ?_⟩
  intro c o heq
  rw [hfall] at hmem
  have hmem' := hmem
  simp only [neo_facts, List.mem_cons, List.not_mem_nil, or_false] at hmem'
  rw [hfall] at heq
  rcases hmem' with hx | hx | hx <;>
    (rw [hx] at heq
     revert heq
     unfold neoFormat
     exact ne_append_left _ _ _ (by decide))

/-- C3 witness: a concrete environment whose NEO feed returns HTTP 200
with zero elements; the fetcher answers with a fallback fact. -/
theorem neo_empty_success_fallback_witness :
    get_nasa_neo_data envNeoEmpty = get_fallback_neo_info envNeoEmpty.rand ∧
      get_nasa_neo_data envNeoEmpty ∈ neo_facts ∧
      get_nasa_neo_data envNeoEmpty ≠ neoFormat 0 ⟨some "A", "1.0", "2.0"⟩ := by
  have h := neo_empty_success_fallback envNeoEmpty ⟨0, []⟩ rfl (Or.inl rfl)
  exact ⟨h.1, h.2.1, h.2.2 0 ⟨some "A", "1.0", "2.0"⟩⟩

/-- C4: when the NEO call raises a transport error or answers with a
non-success status, the fetcher returns the same static fallback draw in
both cases — one of the three NEO fallback facts — and never throws. -/
theorem neo_error_fallback (env : Env)
    (h : env.neo = .error () ∨ ∃ st p, env.neo = .ok (st, p) ∧ st ≠ 200) :
    get_nasa_neo_data env = get_fallback_neo_info env.rand ∧
      get_nasa_neo_data env ∈ neo_facts := by
  have hfall : get_nasa_neo_data env = get_fallback_neo_info env.rand := by
    rcases h with h | ⟨st, p, h, hst⟩
    · simp [get_nasa_neo_data, h]
    · have hs : (st == 200) = false := by
        simpa using hst
      simp [get_nasa_neo_data, h, hs]
  refine ⟨hfall, ?_⟩
  rw [hfall]
  exact choice_mem neo_facts (by decide) env.rand

/-- C4 witness: a transport failure and a 500 status both yield a fallback
fact for concrete environments. -/
theorem neo_error_fallback_witness :
    get_nasa_neo_data (mkEnv "asteroid") ∈ neo_facts ∧
      get_nasa_neo_data envNeo500 ∈ neo_facts := by
  refine ⟨(neo_error_fallback (mkEnv "asteroid") (Or.inl rfl)).2, ?_⟩
  exact (neo_error_fallback envNeo500 (Or.inr ⟨500, .error (), rfl, by decide⟩)).2

/-- C5: whenever a message is classified as general and the request is
answered by the general random pool (no model configured, or the model
call fails), the response is verbatim one of the six general facts; the
input "tell me a space fact" is classified as general. -/
theorem general_pool_verbatim (env : Env) (m : String)
    (hb : env.body = .ok m) (hg : classify (lowerStr m) = .general)
    (hpool : env.model = none ∨
      ∃ f e, env.model = some f ∧ f (gemini_prompt (lowerStr m)) = .error e) :
    (space_chat env).response = get_random_space_fact env.rand ∧
      (space_chat env).response ∈ space_facts ∧
      classify (lowerStr "tell me a space fact") = .general := by
  have hresp := space_chat_ok env m hb
  have h1 : (space_chat env).response = get_random_space_fact env.rand := by
    rw [hresp, dispatch_general env (lowerStr m) hg]
    rcases hpool with hm | ⟨f, e, hm, hf⟩
    · exact smart_none env (lowerStr m) hm
    · exact smart_err env (lowerStr m) f e hm hf
  refine ⟨h1, ?_, by decide⟩
  rw [h1]
  exact choice_mem space_facts (by decide) env.rand

/-- C5 witness: with no model configured, the response to
"tell me a space fact" is one of the six general facts. -/
theorem general_pool_verbatim_witness :
    (space_chat (mkEnv "tell me a space fact")).response ∈ space_facts := by
  exact (general_pool_verbatim (mkEnv "tell me a space fact")
    "tell me a space fact" rfl (by decide) (Or.inl rfl)).2.1

/-- C7: messages classified as mars-rover or agency-trivia are answered by
a pure static draw from the topic's fact list: the response depends only
on the message and the random source — two environments that agree on
those but differ in every live source and in the model produce the same
response — and it is a member of the topic's fixed list. -/
theorem mars_isro_static_draw (env₁ env₂ : Env) (m : String)
    (hb₁ : env₁.body = .ok m) (hb₂ : env₂.body = .ok m)
    (hr : env₁.rand = env₂.rand)
    (hc : classify (lowerStr m) = .marsRover ∨ classify (lowerStr m) = .isro) :
    (space_chat env₁).response = (space_chat env₂).response ∧
      (classify (lowerStr m) = .marsRover →
        (space_chat env₁).response = get_mars_rover_data env₁.rand ∧
          (space_chat env₁).response ∈ mars_facts) ∧
      (classify (lowerStr m) = .isro →
        (space_chat env₁).response = get_isro_info env₁.rand ∧
          (space_chat env₁).response ∈ isro_facts) := by
  have h1 := space_chat_ok env₁ m hb₁
  have h2 := space_chat_ok env₂ m hb₂
  rcases hc with hc | hc
  · refine ⟨?_, fun _ => ?_, fun hi => ?_⟩
    · rw [h1, h2]
      unfold dispatch
      rw [hc, hr]
    · constructor
      · rw [h1]
        unfold dispatch
        rw [hc]
      · rw [h1]
        unfold dispatch
        rw [hc]
        exact choice_mem mars_facts (by decide) env₁.rand
    · rw [hc] at hi
      exact absurd hi (by decide)
  · refine ⟨?_, fun hi => ?_, fun _ => ?_⟩
    · rw [h1, h2]
      unfold dispatch
      rw [hc, hr]
    · rw [hc] at hi
      exact absurd hi (by decide)
    · constructor
      · rw [h1]
        unfold dispatch
        rw [hc]
      · rw [h1]
        unfold dispatch
        rw [hc]
        exact choice_mem isro_facts (by decide) env₁.rand

/-- C7 witness: for the message "mars", an environment with all sources
down and one with every live source answering and a model configured give
the same response, a member of the Mars fact list; likewise "isro" gives a
member of the ISRO fact list. -/
theorem mars_isro_static_draw_witness :
    (space_chat (mkEnv "mars")).response = (space_chat envMarsAlt).response ∧
      (space_chat (mkEnv "mars")).response ∈ mars_facts ∧
      (space_chat (mkEnv "isro")).response ∈ isro_facts := by
  have h := mars_isro_static_draw (mkEnv "mars") envMarsAlt "mars" rfl rfl rfl
    (Or.inl (by decide))
  have h' := mars_isro_static_draw (mkEnv "isro") (mkEnv "isro") "isro" rfl rfl rfl
    (Or.inr (by decide))
  exact ⟨h.1, (h.2.1 (by decide)).2, (h'.2.2 (by decide)).2⟩

/-- C8: the empty message classifies as general; with no model configured
the adapter immediately answers with a general-pool draw, and in every
case the response is either raw model text or one of the six general
facts. -/
theorem empty_message_general (env : Env) (hb : env.body = .ok "") :
    classify (lowerStr "") = .general ∧
      (env.model = none →
        (space_chat env).response = get_random_space_fact env.rand ∧
          (space_chat env).response ∈ space_facts) ∧
      ((space_chat env).response ∈ space_facts ∨
        ∃ f t, env.model = some f ∧ f (gemini_prompt (lowerStr "")) = .ok t ∧
          (space_chat env).response = t) := by
  have hresp := space_chat_ok env "" hb
  have hgen : classify (lowerStr "") = .general := by decide
  refine ⟨hgen, ?_, ?_⟩
  · intro hm
    have h1 : (space_chat env).response = get_random_space_fact env.rand := by
      rw [hresp, dispatch_general env (lowerStr "") hgen, smart_none env _ hm]
    exact ⟨h1, h1 ▸ choice_mem space_facts (by decide) env.rand⟩
  · rw [hresp, dispatch_general env (lowerStr "") hgen]
    cases hm : env.model with
    | none =>
      rw [smart_none env _ hm]
      exact Or.inl (choice_mem space_facts (by decide) env.rand)
    | some f =>
      cases hf : f (gemini_prompt (lowerStr "")) with
      | ok t =>
        rw [smart_ok env _ f t hm hf]
        exact Or.inr ⟨f, t, rfl, hf, rfl⟩
      | error e =>
        rw [smart_err env _ f e hm hf]
        exact Or.inl (choice_mem space_facts (by decide) env.rand)

/-- C8 witness: with no model configured the empty message is answered by
one of the six general facts. -/
theorem empty_message_general_witness :
    classify (lowerStr "") = .general ∧
      (space_chat (mkEnv "")).response ∈ space_facts := by
  have h := empty_message_general (mkEnv "") rfl
  exact ⟨h.1, (h.2.1 rfl).2⟩

/-- C9: whenever dispatch reaches the planet keyed-pool lookup, the
lowercased message cannot contain "mars" (the mars-rover rule fires
first), so the response is the planet lookup's answer and is never the
planet pool's Mars entry text. -/
theorem planet_mars_unreachable (env : Env) (m : String)
    (hb : env.body = .ok m) (h : classify (lowerStr m) = .planet) :
    strContains (lowerStr m) "mars" = false ∧
      (space_chat env).response = get_planet_info (lowerStr m) ∧
      (space_chat env).response ≠ marsPlanetText := by
  have hm := classify_planet_no_mars _ h
  have hresp := space_chat_ok env m hb
  have hd : (space_chat env).response = get_planet_info (lowerStr m) := by
    rw [hresp]
    unfold dispatch
    rw [h]
  refine ⟨hm, hd, ?_⟩
  rw [hd]
  unfold get_planet_info
  apply lookupPool_ne
  · decide
  · intro kv hkv hcont
    fin_cases hkv <;>
      first
        | decide
        | (rw [hm] at hcont
           exact Bool.noConfusion hcont)

/-- C9 witness: the message "jupiter" reaches the planet lookup and its
response is not the Mars entry. -/
theorem planet_mars_unreachable_witness :
    strContains (lowerStr "jupiter") "mars" = false ∧
      (space_chat (mkEnv "jupiter")).response = get_planet_info (lowerStr "jupiter") ∧
      (space_chat (mkEnv "jupiter")).response ≠ marsPlanetText :=
  planet_mars_unreachable (mkEnv "jupiter") "jupiter" rfl (by decide)

/-- C10: a message that contains "andromeda galaxy" and matches none of
the five higher-priority rules is classified as constellation (the
constellation rule owns the keyword "andromeda" and precedes the galaxy
rule), so its response comes from the constellation pool and is never the
galaxy pool's "andromeda galaxy" entry. -/
theorem andromeda_galaxy_shadowed (env : Env) (m : String)
    (hb : env.body = .ok m)
    (h1 : apodCond (lowerStr m) = false) (h2 : neoCond (lowerStr m) = false)
    (h3 : marsCond (lowerStr m) = false) (h4 : launchCond (lowerStr m) = false)
    (h5 : isroCond (lowerStr m) = false)
    (hg : strContains (lowerStr m) "andromeda galaxy" = true) :
    classify (lowerStr m) = .constellationTopic ∧
      (space_chat env).response = get_constellation_info (lowerStr m) ∧
      (space_chat env).response ≠ andromedaGalaxyText := by
  have hand : strContains (lowerStr m) "andromeda" = true := by
    have hsplit : ("andromeda galaxy").data = ("andromeda").data ++ (" galaxy").data := by
      decide
    unfold strContains at hg ⊢
    rw [hsplit] at hg
    exact containsL_append_left _ _ _ hg
  have hconst : constCond (lowerStr m) = true := by
    simp only [constCond, constKeywords, List.any_eq_true]
    exact ⟨"andromeda", by simp, hand⟩
  have hcl : classify (lowerStr m) = .constellationTopic := by
    simp [classify, h1, h2, h3, h4, h5, hconst]
  have hresp := space_chat_ok env m hb
  have hd : (space_chat env).response = get_constellation_info (lowerStr m) := by
    rw [hresp]
    unfold dispatch
    rw [hcl]
  refine ⟨hcl, hd, ?_⟩
  rw [hd]
  unfold get_constellation_info
  apply lookupPool_ne
  · decide
  · intro kv hkv _
    fin_cases hkv <;> decide

/-- C10 witness: the message "andromeda galaxy" itself is classified as
constellation and its response is not the galaxy pool entry. -/
theorem andromeda_galaxy_shadowed_witness :
    classify (lowerStr "andromeda galaxy") = .constellationTopic ∧
      (space_chat (mkEnv "andromeda galaxy")).response =
        get_constellation_info (lowerStr "andromeda galaxy") ∧
      (space_chat (mkEnv "andromeda galaxy")).response ≠ andromedaGalaxyText :=
  andromeda_galaxy_shadowed (mkEnv "andromeda galaxy") "andromeda galaxy" rfl
    (by decide) (by decide) (by decide) (by decide) (by decide) (by decide)

/-- C1 counterexample: with a configured model that answers the prompt
with the empty string, the dispatcher returns the empty response (status
still 200), so the response is not always non-empty. -/
theorem dispatcher_empty_response_cex :
    (space_chat envEmptyModel).response = "" ∧
      (space_chat envEmptyModel).status = 200 := by
  constructor
  · decide
  · rfl

/-- C1 amended: for every environment and message the dispatcher
terminates with success status; a failure while reading the request is
converted into the non-empty apology-plus-fact response; and the response
can only be empty when it is the raw text of a configured generative
model that itself returned the empty string on a general-topic message. -/
theorem dispatcher_total_amended (env : Env) :
    (space_chat env).status = 200 ∧
      (∀ e, env.body = .error e →
        (space_chat env).response = apology e ∧ (space_chat env).response ≠ "") ∧
      ((space_chat env).response = "" →
        ∃ f m, env.body = .ok m ∧ env.model = some f ∧
          f (gemini_prompt (lowerStr m)) = .ok "" ∧
          classify (lowerStr m) = .general) := by
  refine ⟨space_chat_status env, ?_, ?_⟩
  · intro e he
    have h1 : (space_chat env).response = apology e := by
      unfold space_chat
      rw [he]
    refine ⟨h1, ?_⟩
    rw [h1]
    unfold apology
    exact append_ne_empty _ _ (by decide)
  · intro hresp
    cases hb : env.body with
    | error e =>
      exfalso
      have h1 : (space_chat env).response = apology e := by
        unfold space_chat
        rw [hb]
      rw [h1] at hresp
      revert hresp
      unfold apology
      exact append_ne_empty _ _ (by decide)
    | ok m =>
      rw [space_chat_ok env m hb] at hresp
      cases hcl : classify (lowerStr m) with
      | apod =>
        exfalso
        unfold dispatch at hresp
        rw [hcl] at hresp
        exact get_nasa_apod_ne_empty env hresp
      | neo =>
        exfalso
        unfold dispatch at hresp
        rw [hcl] at hresp
        exact get_nasa_neo_data_ne_empty env hresp
      | marsRover =>
        exfalso
        unfold dispatch at hresp
        rw [hcl] at hresp
        exact choice_ne mars_facts (by decide) (by decide) env.rand hresp
      | launch =>
        exfalso
        unfold dispatch at hresp
        rw [hcl] at hresp
        exact get_spacex_launch_data_ne_empty env hresp
      | isro =>
        exfalso
        unfold dispatch at hresp
        rw [hcl] at hresp
        exact choice_ne isro_facts (by decide) (by decide) env.rand hresp
      | constellationTopic =>
        exfalso
        unfold dispatch at hresp
        rw [hcl] at hresp
        exact get_constellation_info_ne_empty (lowerStr m) hresp
      | planet =>
        exfalso
        unfold dispatch at hresp
        rw [hcl] at hresp
        exact get_planet_info_ne_empty (lowerStr m) hresp
      | star =>
        exfalso
        unfold dispatch at hresp
        rw [hcl] at hresp
        exact get_stellar_info_ne_empty (lowerStr m) hresp
      | galaxy =>
        exfalso
        unfold dispatch at hresp
        rw [hcl] at hresp
        exact get_galaxy_info_ne_empty (lowerStr m) hresp
      | general =>
        rw [dispatch_general env (lowerStr m) hcl] at hresp
        cases hm : env.model with
        | none =>
          exfalso
          rw [smart_none env _ hm] at hresp
          exact choice_ne space_facts (by decide) (by decide) env.rand hresp
        | some f =>
          cases hf : f (gemini_prompt (lowerStr m)) with
          | ok t =>
            rw [smart_ok env _ f t hm hf] at hresp
            exact ⟨f, m, rfl, rfl, hresp ▸ hf, hcl⟩
          | error e =>
            exfalso
            rw [smart_err env _ f e hm hf] at hresp
            exact choice_ne space_facts (by decide) (by decide) env.rand hresp

/-- C1 witness: for a concrete request with no model configured the
dispatcher answers with status 200 and a non-empty response. -/
theorem dispatcher_total_witness :
    (space_chat (mkEnv "hello")).status = 200 ∧
      (space_chat (mkEnv "hello")).response ≠ "" := by
  have h := dispatcher_total_amended (mkEnv "hello")
  refine ⟨h.1, fun he => ?_⟩
  obtain ⟨f, m, _, hm, _, _⟩ := h.2.2 he
  exact Option.noConfusion hm

/-- C2 counterexample: the message "photo of mars and the andromeda
galaxy" contains both "mars" and "andromeda galaxy" yet is classified as
picture-of-day, not mars-rover, because the picture-of-day rule is
checked first. -/
theorem classify_order_cex :
    strContains "photo of mars and the andromeda galaxy" "mars" = true ∧
      strContains "photo of mars and the andromeda galaxy" "andromeda galaxy" = true ∧
      classify "photo of mars and the andromeda galaxy" ≠ Topic.marsRover ∧
      classify "photo of mars and the andromeda galaxy" = Topic.apod := by
  refine ⟨by decide, by decide, ?_, by decide⟩
  decide

/-- C2 amended: classification is deterministic, ordered, first-match-wins
over the rule table in the source's priority order; every message that
contains both "mars" and "andromeda galaxy" and matches no picture-of-day
and no near-earth-object keyword is classified as mars-rover; in
particular "tell me about mars and the andromeda galaxy" is classified as
mars-rover. -/
theorem classify_order_amended :
    (∀ m, classify m = firstMatch rules m) ∧
      (∀ m, apodCond m = false → neoCond m = false →
        strContains m "mars" = true → strContains m "andromeda galaxy" = true →
        classify m = Topic.marsRover) ∧
      classify "tell me about mars and the andromeda galaxy" = Topic.marsRover := by
  refine ⟨fun m => rfl, ?_, by decide⟩
  intro m h1 h2 hm _
  have h3 : marsCond m = true := by
    simp [marsCond, hm]
  simp [classify, h1, h2, h3]

/-- C2 witness: the amended rule applied to the spec's example message,
whose side conditions are discharged by evaluation. -/
theorem classify_order_witness :
    classify "tell me about mars and the andromeda galaxy" = Topic.marsRover :=
  classify_order_amended.2.1 "tell me about mars and the andromeda galaxy"
    (by decide) (by decide) (by decide) (by decide)

/-- C6 counterexample: the messages "scorpiotar" and "scorpiustar" differ
only in containing "scorpio" versus "scorpius", yet in the same
environment the dispatcher answers them differently: the replacement
creates the keyword "star" across the substring boundary, so one message
is classified star and the other general. -/
theorem scorpio_scorpius_cex :
    "scorpiotar" = "scorpio" ++ "tar" ∧
      "scorpiustar" = "scorpius" ++ "tar" ∧
      strContains "scorpiotar" "scorpio" = true ∧
      strContains "scorpiotar" "scorpius" = false ∧
      strContains "scorpiustar" "scorpius" = true ∧
      strContains "scorpiustar" "scorpio" = false ∧
      (space_chat (mkEnv "scorpiotar")).response ≠
        (space_chat (mkEnv "scorpiustar")).response := by
  refine ⟨rfl, rfl, by decide, by decide, by decide, by decide, ?_⟩
  decide

/-- C6 amended: for messages that differ only in "scorpio" versus
"scorpius", whenever both are classified as constellation and the
scorpio/scorpius key is each message's first constellation-pool match,
the dispatcher returns identical response text, because the two keys map
to the same entry text. -/
theorem scorpio_scorpius_amended (env₁ env₂ : Env) (m₁ m₂ : String)
    (hb₁ : env₁.body = .ok m₁) (hb₂ : env₂.body = .ok m₂)
    (hc₁ : classify (lowerStr m₁) = .constellationTopic)
    (hc₂ : classify (lowerStr m₂) = .constellationTopic)
    (hk₁ : constFirstKey (lowerStr m₁) = some "scorpio")
    (hk₂ : constFirstKey (lowerStr m₂) = some "scorpius") :
    (space_chat env₁).response = (space_chat env₂).response := by
  have e₁ : (space_chat env₁).response = get_constellation_info (lowerStr m₁) := by
    rw [space_chat_ok env₁ m₁ hb₁]
    unfold dispatch
    rw [hc₁]
  have e₂ : (space_chat env₂).response = get_constellation_info (lowerStr m₂) := by
    rw [space_chat_ok env₂ m₂ hb₂]
    unfold dispatch
    rw [hc₂]
  have key₁ : get_constellation_info (lowerStr m₁) = scorpioConstText := by
    unfold get_constellation_info lookupPool
    unfold constFirstKey at hk₁
    cases hf : constellation_data.find? (fun kv => strContains (lowerStr m₁) kv.1) with
    | none =>
      rw [hf] at hk₁
      exact Option.noConfusion hk₁
    | some kv =>
      rw [hf] at hk₁
      simp only [Option.map_some'] at hk₁
      have hkeq : kv.1 = "scorpio" := Option.some.inj hk₁
      have hmem := List.mem_of_find?_eq_some hf
      fin_cases hmem <;>
        first
          | rfl
          | exact absurd hkeq (by decide)
  have key₂ : get_constellation_info (lowerStr m₂) = scorpioConstText := by
    unfold get_constellation_info lookupPool
    unfold constFirstKey at hk₂
    cases hf : constellation_data.find? (fun kv => strContains (lowerStr m₂) kv.1) with
    | none =>
      rw [hf] at hk₂
      exact Option.noConfusion hk₂
    | some kv =>
      rw [hf] at hk₂
      simp only [Option.map_some'] at hk₂
      have hkeq : kv.1 = "scorpius" := Option.some.inj hk₂
      have hmem := List.mem_of_find?_eq_some hf
      fin_cases hmem <;>
        first
          | rfl
          | exact absurd hkeq (by decide)
  rw [e₁, e₂, key₁, key₂]

/-- C6 witness: "scorpio constellation" and "scorpius constellation" both
reach the constellation pool through their aliased keys and receive
identical responses. -/
theorem scorpio_scorpius_witness :
    (space_chat (mkEnv "scorpio constellation")).response =
      (space_chat (mkEnv "scorpius constellation")).response :=
  scorpio_scorpius_amended (mkEnv "scorpio constellation")
    (mkEnv "scorpius constellation") "scorpio constellation"
    "scorpius constellation" rfl rfl (by decide) (by decide) (by decide)
    (by decide)

end VyomNetra
